import Mathlib

/-!
Verification of `cpc.geofiles.reading.read_grib` (file `src/cpc/geofiles/reading.py`).

The Python function shells out to an external decoder (`wgrib` / `wgrib2`),
reads the decoded binary payload (through a temporary file for grib1, through
stdout for grib2), validates it, optionally flips the row order, and returns a
flat array.  We embed the function shallowly: the outside world (filesystem,
process launch, decoder output) is an explicit `Env` oracle, and the function
returns a `Result` recording the outcome together with the observable side
effects the claims talk about (whether a process spawn was attempted, whether
the temporary file is still on disk afterwards, and the constructed command
line).  The element type of the decoded payload is left polymorphic (`α`
stands for the 32-bit floats, whose values the function never inspects beyond
counting them).
-/

namespace CpcGeofiles

/-- Grid geometry: `GeoGrid` objects are consumed only for their `num_y`
(rows) and `num_x` (columns) attributes (line 113 of `reading.py`). -/
structure GeoGrid where
  num_y : Nat
  num_x : Nat
deriving Repr, DecidableEq

/-- The exceptions `read_grib` can raise, one constructor per raise site /
exception class, carrying the interpolated parts of the message:
* `readingFileNotFound`   — `ReadingError('Grib file not found')` (line 65)
* `readingBadType`        — `ReadingError(__name__ + ' requires grib_type to be grib1 or grib2')` (line 86)
* `readingLaunchFailure`  — `ReadingError("Couldn\x27t read {grib_type} file: {e}")` (line 101)
* `readingNoRecord`       — `ReadingError('No grib record found')` (line 106)
* `valueErrorYrevNoGrid`  — `ValueError('The yrev parameter requires that the grid parameter be defined')` (line 116)
* `valueErrorReshape`     — numpy `ValueError` ("cannot reshape array of size ... into shape ...") escaping the `except AttributeError` clause (line 113)
* `osFileNotFound`        — `FileNotFoundError` raised by `os.remove` / `np.fromfile` on a missing path -/
inductive PyError where
  | readingFileNotFound : PyError
  | readingBadType : PyError
  | readingLaunchFailure (grib_type msg : String) : PyError
  | readingNoRecord : PyError
  | valueErrorYrevNoGrid : PyError
  | valueErrorReshape (size rows cols : Nat) : PyError
  | osFileNotFound (path : String) : PyError
deriving Repr, DecidableEq

/-- Oracle for the outside world one call of `read_grib` interacts with. -/
structure Env (α : Type) where
  /-- result of `os.path.isfile(file)` (line 64) -/
  fileExists : Bool
  /-- whether `subprocess.call` / `subprocess.Popen` raises (lines 91-96) -/
  launchRaises : Bool
  /-- `str(e)` of the raised launch exception -/
  launchErrMsg : String
  /-- the unique temporary file name `str(uuid.uuid4()) + '.bin'` (line 68) -/
  temp_name : String
  /-- whether the grib1 decoder pipeline actually created the temporary file -/
  tempCreated : Bool
  /-- the decoded binary payload (temp-file contents for grib1, stdout for grib2) -/
  payload : List α
deriving Repr

/-- Observable result of one call: the returned data or the raised exception,
plus the side effects the specification talks about. -/
structure Result (α : Type) where
  outcome : Except PyError (List α)
  /-- whether control reached the `subprocess` invocation (lines 92-96) -/
  spawnAttempted : Bool
  /-- whether the temporary file is still on disk when the call ends -/
  tempFileRemains : Bool
  /-- the constructed `wgrib_call` command line, when one was constructed -/
  wgribCall : Option String
deriving Repr

/-- Lines 70-74: `grep_fhr_str = grep_fhr if grep_fhr else '.*'` — note the
Python truthiness test, under which an empty string counts as absent. -/
def grep_fhr_str (grep_fhr : Option String) : String :=
  match grep_fhr with
  | some s => if s = "" then ".*" else s
  | none => ".*"

/-- Lines 76-78: the grib1 command line (inventory pipeline plus `wgrib -i`
writing the record to the temporary file). -/
def wgrib_call_grib1 (file grib_var grib_level fhr_str temp_file : String) : String :=
  "wgrib \"" ++ file ++ "\" | grep \":" ++ grib_var ++ ":\" | grep \":" ++
    grib_level ++ ":\" | grep -P \"" ++ fhr_str ++ "\" | wgrib -i \"" ++ file ++
    "\" -nh -bin -o \"" ++ temp_file ++ "\""

/-- Lines 80-83: the grib2 command line (three `-match` filters, binary data
to stdout). -/
def wgrib_call_grib2 (file grib_var grib_level fhr_str : String) : String :=
  "wgrib2 \"" ++ file ++ "\" -match \"" ++ grib_var ++ "\" -match \"" ++
    grib_level ++ "\" -match \"" ++ fhr_str ++
    "\" -end -order we:sn -no_header -inv /dev/null -bin -"

/-- `np.reshape(data, (rows, cols))` viewed as a list of `rows` rows, each the
next `cols` elements of the flat list. -/
def reshape_rows (rows cols : Nat) (l : List α) : List (List α) :=
  match rows with
  | 0 => []
  | r + 1 => l.take cols :: reshape_rows r cols (l.drop cols)

/-- Lines 113-120 on a payload of the right size: reshape into
`(grid.num_y, grid.num_x)`, `np.flipud` (reverse the row order), reshape back
to one dimension (row-major join). -/
def flipud (rows cols : Nat) (l : List α) : List α :=
  ((reshape_rows rows cols l).reverse).flatten

/-- Lines 110-120: the y-reversal step.  `grid = None` makes `grid.num_y`
raise `AttributeError`, converted to `ValueError` (line 116); a payload whose
size is not `num_y * num_x` makes `np.reshape` raise a `ValueError` that is
NOT caught by the `except AttributeError` clause and propagates. -/
def yrev_step (data : List α) (grid : Option GeoGrid) (yrev : Bool) :
    Except PyError (List α) :=
  if yrev then
    match grid with
    | none => .error .valueErrorYrevNoGrid
    | some g =>
        if data.length = g.num_y * g.num_x then
          .ok (flipud g.num_y g.num_x data)
        else
          .error (.valueErrorReshape data.length g.num_y g.num_x)
  else
    .ok data

/-- Shallow embedding of `read_grib` (lines 63-124 of `reading.py`).  The
`debug` parameter only prints the command line and is omitted.  Control flow,
in source order:
1. `os.path.isfile` check (lines 64-65);
2. temp name generation, `grep_fhr_str`, `wgrib_call` construction with the
   unsupported-type raise in its `else` (lines 67-86);
3. the `try` block launching the process; on a launch exception, grib1 calls
   `os.remove(temp_file)` (which itself raises `FileNotFoundError` when the
   file was never created) before raising `ReadingError` (lines 91-102);
4. payload read: `np.fromfile(temp_file)` for grib1 (raising
   `FileNotFoundError` when the temp file is absent), `proc.stdout.read()`
   for grib2 (lines 103-105);
5. emptiness check raising `ReadingError('No grib record found')` — note it
   precedes the temp-file deletion (lines 105-106);
6. temp-file deletion for grib1 (lines 108-109);
7. y-reversal step (lines 110-120) and return. -/
def read_grib (env : Env α) (file grib_type grib_var grib_level : String)
    (grid : Option GeoGrid) (yrev : Bool) (grep_fhr : Option String) :
    Result α :=
  if env.fileExists = false then
    { outcome := .error .readingFileNotFound,
      spawnAttempted := false, tempFileRemains := false, wgribCall := none }
  else
    let fhr := grep_fhr_str grep_fhr
    if grib_type = "grib1" then
      let call := wgrib_call_grib1 file grib_var grib_level fhr env.temp_name
      if env.launchRaises then
        if env.tempCreated then
          { outcome := .error (.readingLaunchFailure grib_type env.launchErrMsg),
            spawnAttempted := true, tempFileRemains := false, wgribCall := some call }
        else
          { outcome := .error (.osFileNotFound env.temp_name),
            spawnAttempted := true, tempFileRemains := false, wgribCall := some call }
      else
        if env.tempCreated = false then
          { outcome := .error (.osFileNotFound env.temp_name),
            spawnAttempted := true, tempFileRemains := false, wgribCall := some call }
        else
          if env.payload.length = 0 then
            { outcome := .error .readingNoRecord,
              spawnAttempted := true, tempFileRemains := true, wgribCall := some call }
          else
            { outcome := yrev_step env.payload grid yrev,
              spawnAttempted := true, tempFileRemains := false, wgribCall := some call }
    else if grib_type = "grib2" then
      let call := wgrib_call_grib2 file grib_var grib_level fhr
      if env.launchRaises then
        { outcome := .error (.readingLaunchFailure grib_type env.launchErrMsg),
          spawnAttempted := true, tempFileRemains := false, wgribCall := some call }
      else
        if env.payload.length = 0 then
          { outcome := .error .readingNoRecord,
            spawnAttempted := true, tempFileRemains := false, wgribCall := some call }
        else
          { outcome := yrev_step env.payload grid yrev,
            spawnAttempted := true, tempFileRemains := false, wgribCall := some call }
    else
      { outcome := .error .readingBadType,
        spawnAttempted := false, tempFileRemains := false, wgribCall := none }

/-! ### Helper lemmas about `reshape_rows` and `flipud` -/

theorem length_reshape_rows (rows cols : Nat) (l : List α) :
    (reshape_rows rows cols l).length = rows := by
  induction rows generalizing l with
  | zero => rfl
  | succ r ih => simp [reshape_rows, ih]

theorem length_of_mem_reshape_rows (rows cols : Nat) (l : List α)
    (h : l.length = rows * cols) :
    ∀ c ∈ reshape_rows rows cols l, c.length = cols := by
  induction rows generalizing l with
  | zero => intro c hc; simp [reshape_rows] at hc
  | succ r ih =>
      intro c hc
      have hlen : cols ≤ l.length := by
        rw [h, Nat.succ_mul]; omega
      simp only [reshape_rows, List.mem_cons] at hc
      rcases hc with hc | hc
      · subst hc
        rw [List.length_take]
        omega
      · exact ih (l.drop cols)
          (by rw [List.length_drop, h, Nat.succ_mul]; omega) c hc

theorem reshape_rows_getElem? (rows cols : Nat) (l : List α) (i : Nat)
    (hi : i < rows) :
    (reshape_rows rows cols l)[i]? = some ((l.drop (i * cols)).take cols) := by
  induction rows generalizing l i with
  | zero => omega
  | succ r ih =>
      cases i with
      | zero => simp [reshape_rows]
      | succ i =>
          simp only [reshape_rows, List.getElem?_cons_succ]
          rw [ih (l.drop cols) i (by omega), List.drop_drop]
          have harith : cols + i * cols = (i + 1) * cols := by ring
          rw [harith]

theorem flatten_uniform_getElem? (L : List (List α)) (cols i j : Nat)
    (hL : ∀ c ∈ L, c.length = cols) (hj : j < cols) :
    L.flatten[i * cols + j]? = (L[i]?.bind fun row => row[j]?) := by
  induction L generalizing i with
  | nil => simp
  | cons c rest ih =>
      have hc : c.length = cols := hL c (by simp)
      have hrest : ∀ d ∈ rest, d.length = cols := fun d hd => hL d (by simp [hd])
      cases i with
      | zero =>
          simp only [List.flatten_cons, Nat.zero_mul, Nat.zero_add,
            List.getElem?_cons_zero, Option.some_bind]
          rw [List.getElem?_append]
          rw [if_pos (by omega)]
      | succ i =>
          simp only [List.flatten_cons, List.getElem?_cons_succ]
          have hle : c.length ≤ (i + 1) * cols + j := by
            rw [hc, Nat.succ_mul]; omega
          rw [List.getElem?_append_right hle, hc]
          have harith : (i + 1) * cols + j - cols = i * cols + j := by
            rw [Nat.succ_mul]; omega
          rw [harith, ih i hrest]

theorem flipud_getElem? (rows cols : Nat) (l : List α)
    (hlen : l.length = rows * cols) (i j : Nat) (hi : i < rows) (hj : j < cols) :
    (flipud rows cols l)[i * cols + j]? = l[(rows - 1 - i) * cols + j]? := by
  simp only [flipud]
  rw [flatten_uniform_getElem? _ cols i j
    (fun c hc => length_of_mem_reshape_rows rows cols l hlen c (List.mem_reverse.mp hc)) hj]
  rw [List.getElem?_reverse (by rw [length_reshape_rows]; exact hi)]
  rw [length_reshape_rows]
  rw [reshape_rows_getElem? rows cols l (rows - 1 - i) (by omega)]
  simp only [Option.some_bind]
  rw [List.getElem?_take, if_pos hj, List.getElem?_drop]

theorem flipud_length (rows cols : Nat) (l : List α)
    (hlen : l.length = rows * cols) :
    (flipud rows cols l).length = l.length := by
  simp only [flipud]
  rw [List.length_flatten]
  have huni : ∀ c ∈ (reshape_rows rows cols l).reverse, c.length = cols :=
    fun c hc => length_of_mem_reshape_rows rows cols l hlen c (List.mem_reverse.mp hc)
  have hsum : ∀ (L : List (List α)), (∀ c ∈ L, c.length = cols) →
      (List.map List.length L).sum = L.length * cols := by
    intro L
    induction L with
    | nil => simp
    | cons c rest ih =>
        intro hLc
        have hc : c.length = cols := hLc c (by simp)
        simp only [List.map_cons, List.sum_cons, List.length_cons, hc,
          ih (fun d hd => hLc d (by simp [hd])), Nat.succ_mul]
        omega
  rw [hsum _ huni, List.length_reverse, length_reshape_rows, hlen]

theorem flatten_reshape_rows (rows cols : Nat) (l : List α)
    (hlen : l.length = rows * cols) :
    (reshape_rows rows cols l).flatten = l := by
  induction rows generalizing l with
  | zero =>
      have : l = [] := List.length_eq_zero.mp (by omega)
      simp [reshape_rows, this]
  | succ r ih =>
      simp only [reshape_rows, List.flatten_cons]
      rw [ih (l.drop cols) (by rw [List.length_drop, hlen, Nat.succ_mul]; omega)]
      exact List.take_append_drop cols l

theorem reshape_rows_flatten (L : List (List α)) (cols n : Nat)
    (hn : n = L.length) (hL : ∀ c ∈ L, c.length = cols) :
    reshape_rows n cols L.flatten = L := by
  subst hn
  induction L with
  | nil => rfl
  | cons c rest ih =>
      have hc : c.length = cols := hL c (by simp)
      simp only [List.length_cons, List.flatten_cons, reshape_rows]
      rw [← hc, List.take_left, List.drop_left, hc,
        ih (fun d hd => hL d (by simp [hd]))]

theorem flipud_flipud (rows cols : Nat) (l : List α)
    (hlen : l.length = rows * cols) :
    flipud rows cols (flipud rows cols l) = l := by
  have h1 : ∀ c ∈ (reshape_rows rows cols l).reverse, c.length = cols :=
    fun c hc => length_of_mem_reshape_rows rows cols l hlen c (List.mem_reverse.mp hc)
  have h2 : rows = (reshape_rows rows cols l).reverse.length := by
    rw [List.length_reverse, length_reshape_rows]
  show ((reshape_rows rows cols
      (((reshape_rows rows cols l).reverse).flatten)).reverse).flatten = l
  rw [reshape_rows_flatten ((reshape_rows rows cols l).reverse) cols rows h2 h1,
    List.reverse_reverse]
  exact flatten_reshape_rows rows cols l hlen

/-! ### Helper lemmas about `yrev_step` and `read_grib` -/

theorem yrev_step_ok_length (data : List α) (grid : Option GeoGrid) (yrev : Bool)
    (l : List α) (h : yrev_step data grid yrev = .ok l) : l.length = data.length := by
  cases yrev with
  | false =>
      simp only [yrev_step, Bool.false_eq_true, if_false] at h
      simp only [Except.ok.injEq] at h
      rw [← h]
  | true =>
      cases grid with
      | none => simp [yrev_step] at h
      | some g =>
          simp only [yrev_step, if_true] at h
          split at h
          · rename_i hlen
            simp only [Except.ok.injEq] at h
            rw [← h]
            exact flipud_length g.num_y g.num_x data hlen
          · simp at h

theorem yrev_step_ne_ok_nil (data : List α) (grid : Option GeoGrid) (yrev : Bool)
    (hd : ¬ data.length = 0) : yrev_step data grid yrev ≠ .ok ([] : List α) := by
  intro h
  have hlen := yrev_step_ok_length data grid yrev [] h
  simp only [List.length_nil] at hlen
  omega

theorem read_grib_run_outcome (env : Env α)
    (file grib_type grib_var grib_level : String) (grid : Option GeoGrid)
    (yrev : Bool) (fhr : Option String)
    (hf : env.fileExists = true)
    (ht : grib_type = "grib1" ∧ env.tempCreated = true ∨ grib_type = "grib2")
    (hl : env.launchRaises = false)
    (hp : env.payload ≠ []) :
    (read_grib env file grib_type grib_var grib_level grid yrev fhr).outcome
      = yrev_step env.payload grid yrev := by
  have hp0 : ¬ env.payload.length = 0 := fun h0 => hp (List.length_eq_zero.mp h0)
  rcases ht with ⟨h1, hc⟩ | h2
  · subst h1
    simp [read_grib, hf, hl, hc, hp0]
  · subst h2
    simp [read_grib, hf, hl, hp0]

theorem read_grib_empty_outcome (env : Env α)
    (file grib_type grib_var grib_level : String) (grid : Option GeoGrid)
    (yrev : Bool) (fhr : Option String)
    (hf : env.fileExists = true)
    (ht : grib_type = "grib1" ∧ env.tempCreated = true ∨ grib_type = "grib2")
    (hl : env.launchRaises = false)
    (hp : env.payload = []) :
    (read_grib env file grib_type grib_var grib_level grid yrev fhr).outcome
      = .error .readingNoRecord := by
  rcases ht with ⟨h1, hc⟩ | h2
  · subst h1
    simp [read_grib, hf, hl, hc, hp]
  · subst h2
    simp [read_grib, hf, hl, hp]

theorem read_grib_spawn_attempted (env : Env α)
    (file grib_type grib_var grib_level : String) (grid : Option GeoGrid)
    (yrev : Bool) (fhr : Option String)
    (hf : env.fileExists = true)
    (ht : grib_type = "grib1" ∨ grib_type = "grib2") :
    (read_grib env file grib_type grib_var grib_level grid yrev fhr).spawnAttempted
      = true := by
  rcases ht with h | h <;> subst h
  · cases hr : env.launchRaises <;> cases hc : env.tempCreated <;>
      by_cases hp : env.payload.length = 0 <;>
      simp [read_grib, hf, hr, hc, hp]
  · cases hr : env.launchRaises <;>
      by_cases hp : env.payload.length = 0 <;>
      simp [read_grib, hf, hr, hp]

theorem read_grib_wgribCall_grib1 (env : Env α)
    (file grib_var grib_level : String) (grid : Option GeoGrid)
    (yrev : Bool) (fhr : Option String)
    (hf : env.fileExists = true) :
    (read_grib env file "grib1" grib_var grib_level grid yrev fhr).wgribCall
      = some (wgrib_call_grib1 file grib_var grib_level (grep_fhr_str fhr)
          env.temp_name) := by
  cases hr : env.launchRaises <;> cases hc : env.tempCreated <;>
    by_cases hp : env.payload.length = 0 <;>
    simp [read_grib, hf, hr, hc, hp]

theorem read_grib_wgribCall_grib2 (env : Env α)
    (file grib_var grib_level : String) (grid : Option GeoGrid)
    (yrev : Bool) (fhr : Option String)
    (hf : env.fileExists = true) :
    (read_grib env file "grib2" grib_var grib_level grid yrev fhr).wgribCall
      = some (wgrib_call_grib2 file grib_var grib_level (grep_fhr_str fhr)) := by
  cases hr : env.launchRaises <;>
    by_cases hp : env.payload.length = 0 <;>
    simp [read_grib, hf, hr, hp]

theorem read_grib_ok_ne_nil (env : Env α)
    (file grib_type grib_var grib_level : String) (grid : Option GeoGrid)
    (yrev : Bool) (fhr : Option String) :
    (read_grib env file grib_type grib_var grib_level grid yrev fhr).outcome
      ≠ .ok ([] : List α) := by
  intro hok
  by_cases hf : env.fileExists = false
  · simp [read_grib, hf] at hok
  · have hf' : env.fileExists = true := by
      cases h : env.fileExists
      · exact absurd h hf
      · rfl
    by_cases h1 : grib_type = "grib1"
    · subst h1
      cases hr : env.launchRaises
      · cases hc : env.tempCreated
        · simp [read_grib, hf', hr, hc] at hok
        · by_cases hp : env.payload.length = 0
          · simp [read_grib, hf', hr, hc, hp] at hok
          · simp [read_grib, hf', hr, hc, hp] at hok
            exact yrev_step_ne_ok_nil env.payload grid yrev hp hok
      · cases hc : env.tempCreated <;> simp [read_grib, hf', hr, hc] at hok
    · by_cases h2 : grib_type = "grib2"
      · subst h2
        cases hr : env.launchRaises
        · by_cases hp : env.payload.length = 0
          · simp [read_grib, hf', hr, hp] at hok
          · simp [read_grib, hf', hr, hp] at hok
            exact yrev_step_ne_ok_nil env.payload grid yrev hp hok
        · simp [read_grib, hf', hr] at hok
      · simp [read_grib, hf', h1, h2] at hok

/-! ### Claims -/

/-- Claim C1: the claim says the grib1 temporary file is deleted regardless of
the emptiness outcome, in particular even when the call fails with
`RecordNotFound`.  The code raises `ReadingError('No grib record found')`
(line 106) BEFORE the `os.remove(temp_file)` at line 109, so on the
empty-payload path the temporary file is left on disk; only the non-empty
path deletes it.  This theorem evaluates the embedding at the failing input
(grib1 run, temp file created, zero decoded elements) and at the neighbouring
non-empty run. -/
theorem C1_temp_file_leaked_on_empty_record :
    (read_grib (α := Nat)
        { fileExists := true, launchRaises := false, launchErrMsg := "",
          temp_name := "t.bin", tempCreated := true, payload := [] }
        "f.grb" "grib1" "TMP" "850 mb" none false none).outcome
      = .error .readingNoRecord ∧
    (read_grib (α := Nat)
        { fileExists := true, launchRaises := false, launchErrMsg := "",
          temp_name := "t.bin", tempCreated := true, payload := [] }
        "f.grb" "grib1" "TMP" "850 mb" none false none).tempFileRemains = true ∧
    (read_grib (α := Nat)
        { fileExists := true, launchRaises := false, launchErrMsg := "",
          temp_name := "t.bin", tempCreated := true, payload := [1] }
        "f.grb" "grib1" "TMP" "850 mb" none false none).tempFileRemains = false :=
  ⟨rfl, rfl, rfl⟩

/-- Claim C2 counterexample: row-reversal requested with no grid on a grib1
run whose decoder returns one element.  The call does fail with the
`ValueError` (`InvalidConfiguration`), but `spawnAttempted = true`: the
decoder process was spawned first, refuting the claimed short-circuit before
any process launch. -/
theorem C2_counterexample :
    (read_grib (α := Nat)
        { fileExists := true, launchRaises := false, launchErrMsg := "",
          temp_name := "t.bin", tempCreated := true, payload := [1] }
        "f.grb" "grib1" "TMP" "850 mb" none true none).outcome
      = .error .valueErrorYrevNoGrid ∧
    (read_grib (α := Nat)
        { fileExists := true, launchRaises := false, launchErrMsg := "",
          temp_name := "t.bin", tempCreated := true, payload := [1] }
        "f.grb" "grib1" "TMP" "850 mb" none true none).spawnAttempted = true :=
  ⟨rfl, rfl⟩

/-- Claim C2 (amended): when row-reversal is requested with no grid supplied
and the decoder run yields a non-empty payload, the call fails with the
`ValueError` standing for `InvalidConfiguration` — but only after the decoder
process has been spawned and its payload read; there is no pre-spawn
short-circuit for this condition. -/
theorem C2_amended_yrev_no_grid (env : Env α)
    (file grib_type grib_var grib_level : String) (fhr : Option String)
    (hf : env.fileExists = true)
    (ht : grib_type = "grib1" ∧ env.tempCreated = true ∨ grib_type = "grib2")
    (hl : env.launchRaises = false)
    (hp : env.payload ≠ []) :
    (read_grib env file grib_type grib_var grib_level none true fhr).outcome
      = .error .valueErrorYrevNoGrid ∧
    (read_grib env file grib_type grib_var grib_level none true fhr).spawnAttempted
      = true := by
  constructor
  · rw [read_grib_run_outcome env file grib_type grib_var grib_level none true fhr
      hf ht hl hp]
    rfl
  · refine read_grib_spawn_attempted env file grib_type grib_var grib_level none
      true fhr hf ?_
    rcases ht with ⟨h, _⟩ | h
    · exact Or.inl h
    · exact Or.inr h

/-- Witness for C2 (amended) at a concrete grib1 run with payload `[7]`. -/
theorem C2_amended_yrev_no_grid_witness :
    (({ fileExists := true, launchRaises := false, launchErrMsg := "",
        temp_name := "t.bin", tempCreated := true,
        payload := [7] } : Env Nat).fileExists = true ∧
     ("grib1" = "grib1" ∧
        ({ fileExists := true, launchRaises := false, launchErrMsg := "",
           temp_name := "t.bin", tempCreated := true,
           payload := [7] } : Env Nat).tempCreated = true ∨ "grib1" = "grib2") ∧
     ({ fileExists := true, launchRaises := false, launchErrMsg := "",
        temp_name := "t.bin", tempCreated := true,
        payload := [7] } : Env Nat).launchRaises = false ∧
     ({ fileExists := true, launchRaises := false, launchErrMsg := "",
        temp_name := "t.bin", tempCreated := true,
        payload := [7] } : Env Nat).payload ≠ []) ∧
    ((read_grib (α := Nat)
        { fileExists := true, launchRaises := false, launchErrMsg := "",
          temp_name := "t.bin", tempCreated := true, payload := [7] }
        "f.grb" "grib1" "TMP" "850 mb" none true none).outcome
      = .error .valueErrorYrevNoGrid ∧
     (read_grib (α := Nat)
        { fileExists := true, launchRaises := false, launchErrMsg := "",
          temp_name := "t.bin", tempCreated := true, payload := [7] }
        "f.grb" "grib1" "TMP" "850 mb" none true none).spawnAttempted = true) :=
  ⟨⟨rfl, Or.inl ⟨rfl, rfl⟩, rfl, by simp⟩,
    C2_amended_yrev_no_grid
      { fileExists := true, launchRaises := false, launchErrMsg := "",
        temp_name := "t.bin", tempCreated := true, payload := [7] }
      "f.grb" "grib1" "TMP" "850 mb" none rfl (Or.inl ⟨rfl, rfl⟩) rfl (by simp)⟩

/-- Claim C3: on a successful run with row-reversal requested, geometry
`(rows, cols)`, and a non-empty payload of exactly `rows * cols` elements,
the returned array is `flipud rows cols payload`: it has the same length and
its element at flat index `i * cols + j` is the payload's element at flat
index `(rows - 1 - i) * cols + j` for all `i < rows`, `j < cols` (row order
inverted, order within each row preserved, row-major flattening). -/
theorem C3_yrev_row_reversal (env : Env α)
    (file grib_type grib_var grib_level : String) (fhr : Option String)
    (rows cols : Nat)
    (hf : env.fileExists = true)
    (ht : grib_type = "grib1" ∧ env.tempCreated = true ∨ grib_type = "grib2")
    (hl : env.launchRaises = false)
    (hp : env.payload ≠ [])
    (hlen : env.payload.length = rows * cols) :
    (read_grib env file grib_type grib_var grib_level (some ⟨rows, cols⟩) true
        fhr).outcome = .ok (flipud rows cols env.payload) ∧
    (flipud rows cols env.payload).length = env.payload.length ∧
    ∀ i j, i < rows → j < cols →
      (flipud rows cols env.payload)[i * cols + j]?
        = env.payload[(rows - 1 - i) * cols + j]? := by
  refine ⟨?_, flipud_length rows cols env.payload hlen,
    fun i j hi hj => flipud_getElem? rows cols env.payload hlen i j hi hj⟩
  rw [read_grib_run_outcome env file grib_type grib_var grib_level
    (some ⟨rows, cols⟩) true fhr hf ht hl hp]
  simp [yrev_step, hlen]

/-- Witness for C3 at a concrete grib2 run: payload `[10, 20, 30, 40]` as a
2×2 grid comes back as `[30, 40, 10, 20]`. -/
theorem C3_yrev_row_reversal_witness :
    (({ fileExists := true, launchRaises := false, launchErrMsg := "",
        temp_name := "t.bin", tempCreated := false,
        payload := [10, 20, 30, 40] } : Env Nat).fileExists = true ∧
     ("grib2" = "grib1" ∧
        ({ fileExists := true, launchRaises := false, launchErrMsg := "",
           temp_name := "t.bin", tempCreated := false,
           payload := [10, 20, 30, 40] } : Env Nat).tempCreated = true ∨
        "grib2" = "grib2") ∧
     ({ fileExists := true, launchRaises := false, launchErrMsg := "",
        temp_name := "t.bin", tempCreated := false,
        payload := [10, 20, 30, 40] } : Env Nat).launchRaises = false ∧
     ({ fileExists := true, launchRaises := false, launchErrMsg := "",
        temp_name := "t.bin", tempCreated := false,
        payload := [10, 20, 30, 40] } : Env Nat).payload ≠ [] ∧
     ({ fileExists := true, launchRaises := false, launchErrMsg := "",
        temp_name := "t.bin", tempCreated := false,
        payload := [10, 20, 30, 40] } : Env Nat).payload.length = 2 * 2) ∧
    ((read_grib (α := Nat)
        { fileExists := true, launchRaises := false, launchErrMsg := "",
          temp_name := "t.bin", tempCreated := false, payload := [10, 20, 30, 40] }
        "f.grb" "grib2" "TMP" "850 mb" (some ⟨2, 2⟩) true none).outcome
      = .ok (flipud 2 2 [10, 20, 30, 40]) ∧
     (flipud 2 2 ([10, 20, 30, 40] : List Nat)).length
        = ([10, 20, 30, 40] : List Nat).length ∧
     ∀ i j, i < 2 → j < 2 →
       (flipud 2 2 ([10, 20, 30, 40] : List Nat))[i * 2 + j]?
         = ([10, 20, 30, 40] : List Nat)[(2 - 1 - i) * 2 + j]?) :=
  ⟨⟨rfl, Or.inr rfl, rfl, by simp, rfl⟩,
    C3_yrev_row_reversal
      { fileExists := true, launchRaises := false, launchErrMsg := "",
        temp_name := "t.bin", tempCreated := false, payload := [10, 20, 30, 40] }
      "f.grb" "grib2" "TMP" "850 mb" none 2 2 rfl (Or.inr rfl) rfl (by simp) rfl⟩

/-- Claim C4 counterexample: a grib2 run with row-reversal requested,
geometry 2×2 supplied, and a decoded payload of 0 elements — the element
count (0) differs from `rows * cols` (4), yet the call fails with
`ReadingError('No grib record found')` (`RecordNotFound`), not with the
`ValueError` standing for `InvalidConfiguration`: the emptiness check fires
first. -/
theorem C4_counterexample :
    (read_grib (α := Nat)
        { fileExists := true, launchRaises := false, launchErrMsg := "",
          temp_name := "t.bin", tempCreated := false, payload := [] }
        "f.grb" "grib2" "TMP" "850 mb" (some ⟨2, 2⟩) true none).outcome
      = .error .readingNoRecord ∧
    (∀ s r k, PyError.readingNoRecord ≠ PyError.valueErrorReshape s r k) ∧
    PyError.readingNoRecord ≠ PyError.valueErrorYrevNoGrid :=
  ⟨rfl, fun s r k h => PyError.noConfusion h, fun h => PyError.noConfusion h⟩

/-- Claim C4 (amended): for every run in which row-reversal is requested with
a supplied geometry and the decoded payload is NON-EMPTY but its element
count differs from `num_y * num_x`, the call fails with the numpy reshape
`ValueError` (`InvalidConfiguration`).  (An empty payload instead fails
earlier with `RecordNotFound`.) -/
theorem C4_amended_reshape_mismatch (env : Env α)
    (file grib_type grib_var grib_level : String) (fhr : Option String)
    (g : GeoGrid)
    (hf : env.fileExists = true)
    (ht : grib_type = "grib1" ∧ env.tempCreated = true ∨ grib_type = "grib2")
    (hl : env.launchRaises = false)
    (hp : env.payload ≠ [])
    (hmis : env.payload.length ≠ g.num_y * g.num_x) :
    (read_grib env file grib_type grib_var grib_level (some g) true fhr).outcome
      = .error (.valueErrorReshape env.payload.length g.num_y g.num_x) := by
  rw [read_grib_run_outcome env file grib_type grib_var grib_level (some g) true
    fhr hf ht hl hp]
  simp [yrev_step, hmis]

/-- Witness for C4 (amended): a 3-element payload against a 2×2 geometry. -/
theorem C4_amended_reshape_mismatch_witness :
    (({ fileExists := true, launchRaises := false, launchErrMsg := "",
        temp_name := "t.bin", tempCreated := false,
        payload := [1, 2, 3] } : Env Nat).fileExists = true ∧
     ("grib2" = "grib1" ∧
        ({ fileExists := true, launchRaises := false, launchErrMsg := "",
           temp_name := "t.bin", tempCreated := false,
           payload := [1, 2, 3] } : Env Nat).tempCreated = true ∨
        "grib2" = "grib2") ∧
     ({ fileExists := true, launchRaises := false, launchErrMsg := "",
        temp_name := "t.bin", tempCreated := false,
        payload := [1, 2, 3] } : Env Nat).launchRaises = false ∧
     ({ fileExists := true, launchRaises := false, launchErrMsg := "",
        temp_name := "t.bin", tempCreated := false,
        payload := [1, 2, 3] } : Env Nat).payload ≠ [] ∧
     ({ fileExists := true, launchRaises := false, launchErrMsg := "",
        temp_name := "t.bin", tempCreated := false,
        payload := [1, 2, 3] } : Env Nat).payload.length
        ≠ (GeoGrid.mk 2 2).num_y * (GeoGrid.mk 2 2).num_x) ∧
    (read_grib (α := Nat)
        { fileExists := true, launchRaises := false, launchErrMsg := "",
          temp_name := "t.bin", tempCreated := false, payload := [1, 2, 3] }
        "f.grb" "grib2" "TMP" "850 mb" (some ⟨2, 2⟩) true none).outcome
      = .error (.valueErrorReshape 3 2 2) :=
  ⟨⟨rfl, Or.inr rfl, rfl, by simp, by decide⟩,
    C4_amended_reshape_mismatch
      { fileExists := true, launchRaises := false, launchErrMsg := "",
        temp_name := "t.bin", tempCreated := false, payload := [1, 2, 3] }
      "f.grb" "grib2" "TMP" "850 mb" none ⟨2, 2⟩ rfl (Or.inr rfl) rfl (by simp)
      (by decide)⟩

/-- Claim C5: whenever the decoder runs (either sub-format, launch succeeded,
grib1 temp file created) and produces zero decoded elements, the call fails
with `ReadingError('No grib record found')` (`RecordNotFound`); that error is
a different value from every process-execution (`DecodeError`) failure; and on
no input whatsoever does `read_grib` return a zero-element array as a valid
result. -/
theorem C5_zero_elements_record_not_found (env : Env α)
    (file grib_type grib_var grib_level : String) (grid : Option GeoGrid)
    (yrev : Bool) (fhr : Option String)
    (hf : env.fileExists = true)
    (ht : grib_type = "grib1" ∧ env.tempCreated = true ∨ grib_type = "grib2")
    (hl : env.launchRaises = false)
    (hp : env.payload = []) :
    (read_grib env file grib_type grib_var grib_level grid yrev fhr).outcome
      = .error .readingNoRecord ∧
    (∀ t m, PyError.readingNoRecord ≠ PyError.readingLaunchFailure t m) ∧
    ∀ (env2 : Env α) (f2 t2 v2 l2 : String) (g2 : Option GeoGrid) (y2 : Bool)
      (fhr2 : Option String),
      (read_grib env2 f2 t2 v2 l2 g2 y2 fhr2).outcome ≠ .ok ([] : List α) :=
  ⟨read_grib_empty_outcome env file grib_type grib_var grib_level grid yrev fhr
      hf ht hl hp,
    fun t m h => PyError.noConfusion h,
    fun env2 f2 t2 v2 l2 g2 y2 fhr2 =>
      read_grib_ok_ne_nil env2 f2 t2 v2 l2 g2 y2 fhr2⟩

/-- Witness for C5 at a concrete grib1 run with an empty temp file. -/
theorem C5_zero_elements_record_not_found_witness :
    (({ fileExists := true, launchRaises := false, launchErrMsg := "",
        temp_name := "t.bin", tempCreated := true,
        payload := [] } : Env Nat).fileExists = true ∧
     ("grib1" = "grib1" ∧
        ({ fileExists := true, launchRaises := false, launchErrMsg := "",
           temp_name := "t.bin", tempCreated := true,
           payload := [] } : Env Nat).tempCreated = true ∨ "grib1" = "grib2") ∧
     ({ fileExists := true, launchRaises := false, launchErrMsg := "",
        temp_name := "t.bin", tempCreated := true,
        payload := [] } : Env Nat).launchRaises = false ∧
     ({ fileExists := true, launchRaises := false, launchErrMsg := "",
        temp_name := "t.bin", tempCreated := true,
        payload := [] } : Env Nat).payload = ([] : List Nat)) ∧
    ((read_grib (α := Nat)
        { fileExists := true, launchRaises := false, launchErrMsg := "",
          temp_name := "t.bin", tempCreated := true, payload := [] }
        "f.grb" "grib1" "TMP" "850 mb" none false none).outcome
      = .error .readingNoRecord ∧
     (∀ t m, PyError.readingNoRecord ≠ PyError.readingLaunchFailure t m) ∧
     ∀ (env2 : Env Nat) (f2 t2 v2 l2 : String) (g2 : Option GeoGrid) (y2 : Bool)
       (fhr2 : Option String),
       (read_grib env2 f2 t2 v2 l2 g2 y2 fhr2).outcome ≠ .ok ([] : List Nat)) :=
  ⟨⟨rfl, Or.inl ⟨rfl, rfl⟩, rfl, rfl⟩,
    C5_zero_elements_record_not_found
      { fileExists := true, launchRaises := false, launchErrMsg := "",
        temp_name := "t.bin", tempCreated := true, payload := [] }
      "f.grb" "grib1" "TMP" "850 mb" none false none rfl (Or.inl ⟨rfl, rfl⟩) rfl
      rfl⟩

/-- Claim C6: when the archive path does not reference an existing file, the
call fails with `ReadingError('Grib file not found')` (`NotFound`) and no
decoder process launch is ever attempted, regardless of every other
argument. -/
theorem C6_missing_file_short_circuits (env : Env α)
    (file grib_type grib_var grib_level : String) (grid : Option GeoGrid)
    (yrev : Bool) (fhr : Option String)
    (hf : env.fileExists = false) :
    (read_grib env file grib_type grib_var grib_level grid yrev fhr).outcome
      = .error .readingFileNotFound ∧
    (read_grib env file grib_type grib_var grib_level grid yrev fhr).spawnAttempted
      = false := by
  constructor <;> simp [read_grib, hf]

/-- Witness for C6 at a concrete call on a missing file. -/
theorem C6_missing_file_short_circuits_witness :
    (({ fileExists := false, launchRaises := false, launchErrMsg := "",
        temp_name := "t.bin", tempCreated := false,
        payload := [1] } : Env Nat).fileExists = false) ∧
    ((read_grib (α := Nat)
        { fileExists := false, launchRaises := false, launchErrMsg := "",
          temp_name := "t.bin", tempCreated := false, payload := [1] }
        "f.grb" "grib1" "TMP" "850 mb" none true none).outcome
      = .error .readingFileNotFound ∧
     (read_grib (α := Nat)
        { fileExists := false, launchRaises := false, launchErrMsg := "",
          temp_name := "t.bin", tempCreated := false, payload := [1] }
        "f.grb" "grib1" "TMP" "850 mb" none true none).spawnAttempted = false) :=
  ⟨rfl,
    C6_missing_file_short_circuits
      { fileExists := false, launchRaises := false, launchErrMsg := "",
        temp_name := "t.bin", tempCreated := false, payload := [1] }
      "f.grb" "grib1" "TMP" "850 mb" none true none rfl⟩

/-- Claim C7: the row-reversal transformation of lines 111-120 (reshape to
`(rows, cols)`, reverse the row order, flatten row-major) is an involution on
every array of exactly `rows * cols` elements: applying it twice restores the
original array. -/
theorem C7_flipud_involution (rows cols : Nat) (l : List α)
    (hlen : l.length = rows * cols) :
    flipud rows cols (flipud rows cols l) = l :=
  flipud_flipud rows cols l hlen

/-- Witness for C7 on the 2×3 array `[1, 2, 3, 4, 5, 6]`. -/
theorem C7_flipud_involution_witness :
    ([1, 2, 3, 4, 5, 6] : List Nat).length = 2 * 3 ∧
    flipud 2 3 (flipud 2 3 ([1, 2, 3, 4, 5, 6] : List Nat))
      = [1, 2, 3, 4, 5, 6] :=
  ⟨rfl, C7_flipud_involution 2 3 [1, 2, 3, 4, 5, 6] rfl⟩

/-- Claim C8: the claim says a grib1 launch failure removes the temp file if
it was created — without failing merely because it was never created — and
raises `DecodeError`.  The code calls `os.remove(temp_file)` UNCONDITIONALLY
in the `except` handler (line 99): when the launch failed before the decoder
created the temp file (the usual case for a launch failure), `os.remove`
itself raises `FileNotFoundError`, which escapes and masks the intended
`ReadingError` (`DecodeError`), contradicting the docstring's promise that
wgrib problems raise `ReadingError`.  When the temp file does exist, the
removal and the `DecodeError` behave as claimed. -/
theorem C8_launch_failure_unconditional_remove :
    (read_grib (α := Nat)
        { fileExists := true, launchRaises := true, launchErrMsg := "fork failed",
          temp_name := "t.bin", tempCreated := false, payload := [] }
        "f.grb" "grib1" "TMP" "850 mb" none false none).outcome
      = .error (.osFileNotFound "t.bin") ∧
    (∀ t m, PyError.osFileNotFound "t.bin" ≠ PyError.readingLaunchFailure t m) ∧
    (read_grib (α := Nat)
        { fileExists := true, launchRaises := true, launchErrMsg := "fork failed",
          temp_name := "t.bin", tempCreated := true, payload := [] }
        "f.grb" "grib1" "TMP" "850 mb" none false none).outcome
      = .error (.readingLaunchFailure "grib1" "fork failed") ∧
    (read_grib (α := Nat)
        { fileExists := true, launchRaises := true, launchErrMsg := "fork failed",
          temp_name := "t.bin", tempCreated := true, payload := [] }
        "f.grb" "grib1" "TMP" "850 mb" none false none).tempFileRemains = false :=
  ⟨rfl, fun t m h => PyError.noConfusion h, rfl, rfl⟩

/-- Claim C9 counterexample: the caller supplies the forecast-hour pattern
`""` (given, but falsy under Python truthiness), and the constructed grib1
invocation uses the wildcard `.*`, not the supplied pattern verbatim: the two
command lines differ. -/
theorem C9_counterexample :
    (read_grib (α := Nat)
        { fileExists := true, launchRaises := false, launchErrMsg := "",
          temp_name := "t.bin", tempCreated := true, payload := [1] }
        "f.grb" "grib1" "TMP" "850 mb" none false (some "")).wgribCall
      = some (wgrib_call_grib1 "f.grb" "TMP" "850 mb" ".*" "t.bin") ∧
    wgrib_call_grib1 "f.grb" "TMP" "850 mb" ".*" "t.bin"
      ≠ wgrib_call_grib1 "f.grb" "TMP" "850 mb" "" "t.bin" :=
  ⟨rfl, by decide⟩

/-- Claim C9 (amended): the constructed invocation (either sub-format) embeds
`grep_fhr_str grep_fhr`, which is the caller-supplied pattern verbatim
whenever a NON-EMPTY pattern is given, and the wildcard `.*` when the pattern
is absent or empty (Python truthiness treats the empty string as absent). -/
theorem C9_amended_fhr_pattern (env : Env α)
    (file grib_var grib_level : String) (grid : Option GeoGrid) (yrev : Bool)
    (fhr : Option String)
    (hf : env.fileExists = true) :
    (read_grib env file "grib1" grib_var grib_level grid yrev fhr).wgribCall
      = some (wgrib_call_grib1 file grib_var grib_level (grep_fhr_str fhr)
          env.temp_name) ∧
    (read_grib env file "grib2" grib_var grib_level grid yrev fhr).wgribCall
      = some (wgrib_call_grib2 file grib_var grib_level (grep_fhr_str fhr)) ∧
    (∀ s, fhr = some s → s ≠ "" → grep_fhr_str fhr = s) ∧
    ((fhr = none ∨ fhr = some "") → grep_fhr_str fhr = ".*") := by
  refine ⟨read_grib_wgribCall_grib1 env file grib_var grib_level grid yrev fhr hf,
    read_grib_wgribCall_grib2 env file grib_var grib_level grid yrev fhr hf,
    ?_, ?_⟩
  · intro s hs hne
    subst hs
    simp [grep_fhr_str, hne]
  · rintro (h | h) <;> subst h <;> simp [grep_fhr_str]

/-- Witness for C9 (amended) at a concrete run with pattern `":12hr fcst:"`. -/
theorem C9_amended_fhr_pattern_witness :
    (({ fileExists := true, launchRaises := false, launchErrMsg := "",
        temp_name := "t.bin", tempCreated := true,
        payload := [1] } : Env Nat).fileExists = true) ∧
    ((read_grib (α := Nat)
        { fileExists := true, launchRaises := false, launchErrMsg := "",
          temp_name := "t.bin", tempCreated := true, payload := [1] }
        "f.grb" "grib1" "TMP" "850 mb" none false (some ":12hr fcst:")).wgribCall
      = some (wgrib_call_grib1 "f.grb" "TMP" "850 mb"
          (grep_fhr_str (some ":12hr fcst:")) "t.bin") ∧
     (read_grib (α := Nat)
        { fileExists := true, launchRaises := false, launchErrMsg := "",
          temp_name := "t.bin", tempCreated := true, payload := [1] }
        "f.grb" "grib2" "TMP" "850 mb" none false (some ":12hr fcst:")).wgribCall
      = some (wgrib_call_grib2 "f.grb" "TMP" "850 mb"
          (grep_fhr_str (some ":12hr fcst:"))) ∧
     (∀ s, (some ":12hr fcst:" : Option String) = some s → s ≠ "" →
        grep_fhr_str (some ":12hr fcst:") = s) ∧
     (((some ":12hr fcst:" : Option String) = none ∨
        (some ":12hr fcst:" : Option String) = some "") →
        grep_fhr_str (some ":12hr fcst:") = ".*")) :=
  ⟨rfl,
    C9_amended_fhr_pattern
      { fileExists := true, launchRaises := false, launchErrMsg := "",
        temp_name := "t.bin", tempCreated := true, payload := [1] }
      "f.grb" "TMP" "850 mb" none false (some ":12hr fcst:") rfl⟩

/-- Claim C10: when row-reversal is not requested, the `grid` argument is
never consulted — the whole observable result is identical for any two grid
arguments, on every environment — and on a successful run the returned array
is exactly the decoded payload, even when the grid is absent or its
dimensions do not match the payload size. -/
theorem C10_no_yrev_ignores_grid (env : Env α)
    (file grib_type grib_var grib_level : String)
    (g1 g2 : Option GeoGrid) (fhr : Option String) :
    read_grib env file grib_type grib_var grib_level g1 false fhr
      = read_grib env file grib_type grib_var grib_level g2 false fhr ∧
    (env.fileExists = true →
      (grib_type = "grib1" ∧ env.tempCreated = true ∨ grib_type = "grib2") →
      env.launchRaises = false → env.payload ≠ [] →
      (read_grib env file grib_type grib_var grib_level g1 false fhr).outcome
        = .ok env.payload) := by
  constructor
  · simp [read_grib, yrev_step]
  · intro hf ht hl hp
    rw [read_grib_run_outcome env file grib_type grib_var grib_level g1 false fhr
      hf ht hl hp]
    rfl

/-- Witness for C10: without row-reversal, a 2-element payload is returned
unchanged even against an absurd 3×5 geometry, and the result equals the
no-geometry result. -/
theorem C10_no_yrev_ignores_grid_witness :
    (read_grib (α := Nat)
        { fileExists := true, launchRaises := false, launchErrMsg := "",
          temp_name := "t.bin", tempCreated := true, payload := [8, 9] }
        "f.grb" "grib1" "TMP" "850 mb" (some ⟨3, 5⟩) false none
      = read_grib (α := Nat)
        { fileExists := true, launchRaises := false, launchErrMsg := "",
          temp_name := "t.bin", tempCreated := true, payload := [8, 9] }
        "f.grb" "grib1" "TMP" "850 mb" none false none) ∧
    (({ fileExists := true, launchRaises := false, launchErrMsg := "",
        temp_name := "t.bin", tempCreated := true,
        payload := [8, 9] } : Env Nat).fileExists = true →
      ("grib1" = "grib1" ∧
        ({ fileExists := true, launchRaises := false, launchErrMsg := "",
           temp_name := "t.bin", tempCreated := true,
           payload := [8, 9] } : Env Nat).tempCreated = true ∨
        "grib1" = "grib2") →
      ({ fileExists := true, launchRaises := false, launchErrMsg := "",
         temp_name := "t.bin", tempCreated := true,
         payload := [8, 9] } : Env Nat).launchRaises = false →
      ({ fileExists := true, launchRaises := false, launchErrMsg := "",
         temp_name := "t.bin", tempCreated := true,
         payload := [8, 9] } : Env Nat).payload ≠ [] →
      (read_grib (α := Nat)
          { fileExists := true, launchRaises := false, launchErrMsg := "",
            temp_name := "t.bin", tempCreated := true, payload := [8, 9] }
          "f.grb" "grib1" "TMP" "850 mb" (some ⟨3, 5⟩) false none).outcome
        = .ok [8, 9]) :=
  C10_no_yrev_ignores_grid
    { fileExists := true, launchRaises := false, launchErrMsg := "",
      temp_name := "t.bin", tempCreated := true, payload := [8, 9] }
    "f.grb" "grib1" "TMP" "850 mb" (some ⟨3, 5⟩) none none

end CpcGeofiles
